import Mathlib

/-!
Shallow embedding of `netmiko/ericsson/ericsson_mltn.py` (Ericsson MiniLink
driver): the login handshake state machine (`special_login_handler`), the
constructor's username substitution (`__init__`), configuration-mode entry
(`config_mode` of the 63xx and 66xx variants) and `save_config`.

Modelling conventions:
  - Wall-clock time is counted in ticks of 0.5 seconds, so `time.sleep(0.5)`
    advances the clock by 1 tick, `time.sleep(1)` by 2 ticks, and a timeout of
    `T` seconds becomes a deadline of `2 * T` ticks.  `read_channel` and
    `write_channel` are treated as instantaneous, as in the source, where only
    the explicit sleeps consume noticeable time.
  - The channel is scripted: a list of strings; each non-blocking
    `read_channel()` pops the next element, or returns `""` when the script is
    exhausted (a quiet channel).
  - Effects (writes to the channel, `disconnect()` invocations) are recorded
    in the state.
  - Collaborators from the generic connection layer (`BaseConnection`), whose
    code is not part of this core, are modelled from the spec where needed and
    say so in their doc comment.
-/

/-- The line-terminator constant.  Modelled from the spec: "Line-terminator
constant (`RETURN`) used for every keystroke sent". -/
def RETURN : String := "\n"

/-- Executable substring test on character lists: `pat` occurs inside `l`. -/
def listContains (pat : List Char) : List Char → Bool
  | [] => pat.isEmpty
  | c :: rest => pat.isPrefixOf (c :: rest) || listContains pat rest

/-- Python's substring operator `pat in s`. -/
def strContains (s pat : String) : Bool := listContains pat.toList s.toList

/-- One non-blocking `read_channel()` on a scripted channel: pop the next
chunk, or return `""` when nothing is buffered. -/
def readChannel : List String → String × List String
  | [] => ("", [])
  | c :: rest => (c, rest)

/-- The session configuration fields that `special_login_handler` reads:
`self._real_username`, `self.password` and `self.auth_timeout`
(`none` = unset). -/
structure LoginCfg where
  realUsername : String
  password : String
  authTimeout : Option Nat
deriving DecidableEq, Repr

/-- `if not self.auth_timeout: self.auth_timeout = 20` — the timeout actually
used, defaulting to 20 seconds when unset or zero. -/
def effectiveTimeout : Option Nat → Nat
  | none => 20
  | some 0 => 20
  | some t => t

/-- The wall-clock deadline of the polling loop, in 0.5-second ticks. -/
def loginDeadline (cfg : LoginCfg) : Nat := 2 * effectiveTimeout cfg.authTimeout

/-- Transient state of one login attempt: elapsed ticks, the accumulated
output buffer, the remaining channel script, the ordered list of writes made
so far, and the number of `disconnect()` invocations. -/
structure LoginState where
  elapsed : Nat
  output : String
  reads : List String
  writes : List String
  disconnects : Nat
deriving DecidableEq, Repr

/-- Terminal outcome of the handshake: the `break` after sending the password,
the `ValueError` raised on a busy device, or the `NetmikoTimeoutException`
raised by the loop's else-clause (carrying the `auth_timeout` value that the
exception message interpolates). -/
inductive LoginOutcome where
  | authenticated
  | busy
  | timedOut (authTimeout : Nat)
deriving DecidableEq, Repr

/-- Result of one pass of the `while` body: either the loop continues with a
new state, or it terminates with an outcome. -/
inductive StepResult where
  | cont (s : LoginState)
  | done (o : LoginOutcome) (s : LoginState)
deriving DecidableEq, Repr

/-- The `if`/`elif` chain of the loop body, applied to the accumulated buffer
`out` (`e` is the elapsed time when the chain is reached):
`login:`/`User:` writes the real username and clears the buffer;
`password:`/`Password:` writes the password and breaks;
`busy` disconnects and raises; in the remaining cases the buffer is kept.
Every path that falls through the chain executes the trailing
`time.sleep(1)` (2 ticks) before the next iteration. -/
def loginBranches (cfg : LoginCfg) (e : Nat) (out : String) (reads : List String)
    (writes : List String) (disc : Nat) : StepResult :=
  if strContains out "login:" || strContains out "User:" then
    StepResult.cont ⟨e + 2, "", reads, writes ++ [cfg.realUsername ++ RETURN], disc⟩
  else if strContains out "password:" || strContains out "Password:" then
    StepResult.done LoginOutcome.authenticated
      ⟨e, out, reads, writes ++ [cfg.password ++ RETURN], disc⟩
  else if strContains out "busy" then
    StepResult.done LoginOutcome.busy ⟨e, out, reads, writes, disc + 1⟩
  else
    StepResult.cont ⟨e + 2, out, reads, writes, disc⟩

/-- One pass of the polling loop's body: non-blocking read into the buffer;
if the buffer is empty, sleep 0.5 s, read once more, and if still empty write
a bare `RETURN` nudge and `continue`; otherwise run the `if`/`elif` chain. -/
def loginStep (cfg : LoginCfg) (s : LoginState) : StepResult :=
  let r1 := readChannel s.reads
  let out1 := s.output ++ r1.1
  if out1 = "" then
    let r2 := readChannel r1.2
    let out2 := out1 ++ r2.1
    if out2 = "" then
      StepResult.cont ⟨s.elapsed + 1, out2, r2.2, s.writes ++ [RETURN], s.disconnects⟩
    else
      loginBranches cfg (s.elapsed + 1) out2 r2.2 s.writes s.disconnects
  else
    loginBranches cfg s.elapsed out1 r1.2 s.writes s.disconnects

/-- The `while time.time() - start < self.auth_timeout` loop with its
no-break else-clause.  The `fuel` parameter only serves termination: every
continuing pass advances the clock by at least one tick
(`loginStep_cont_elapsed`), so fuel `loginDeadline cfg` is never exhausted
before the deadline check itself fails (`loginLoopF_timedOut_deadline`). -/
def loginLoopF (cfg : LoginCfg) : Nat → LoginState → LoginOutcome × LoginState
  | 0, s => (LoginOutcome.timedOut (effectiveTimeout cfg.authTimeout), s)
  | fuel + 1, s =>
    if s.elapsed < loginDeadline cfg then
      match loginStep cfg s with
      | StepResult.done o s1 => (o, s1)
      | StepResult.cont s1 => loginLoopF cfg fuel s1
    else
      (LoginOutcome.timedOut (effectiveTimeout cfg.authTimeout), s)

/-- `EricssonMinilinkBase.special_login_handler`, run over a scripted
channel: the full polling loop from a fresh handshake state. -/
def special_login_handler (cfg : LoginCfg) (reads : List String) :
    LoginOutcome × LoginState :=
  loginLoopF cfg (loginDeadline cfg) ⟨0, "", reads, [], 0⟩

/-- What `EricssonMinilinkBase.__init__` does with the `username` keyword
argument: `self._real_username` as set, and the `username` entry of the
kwargs actually handed to `super().__init__` (the transport-level
negotiation); `none` means the key was absent. -/
structure InitResult where
  realUsername : String
  superUsername : Option String
deriving DecidableEq, Repr

/-- `EricssonMinilinkBase.__init__`: when a `username` keyword is present, it
is saved as `self._real_username` and replaced by the fixed placeholder
`"cli"` before `super().__init__` runs; when absent, nothing is substituted
and `self._real_username` stays `""`. -/
def EricssonMinilinkBase.init (usernameKw : Option String) : InitResult :=
  match usernameKw with
  | some u => ⟨u, some "cli"⟩
  | none => ⟨"", none⟩

/-- Modelled from the spec: `checkConfigMode(marker) -> bool` of the generic
connection layer "probes the live prompt" — it reports whether the live
prompt contains the marker.  The live prompt at probe time is an input. -/
def check_config_mode (check_string prompt : String) : Bool :=
  strContains prompt check_string

/-- Modelled from the spec: `normalizeCommand(cmd) -> string` of the generic
connection layer "appends required line terminator". -/
def normalize_cmd (cmd : String) : String := cmd ++ RETURN

/-- The `ValueError("Failed to enter configuration mode.")` raised when the
post-write probe still does not show the configuration marker. -/
inductive ConfigError where
  | entryFailed
deriving DecidableEq, Repr

/-- `EricssonMinilink63SSH.config_mode`'s default `config_command`. -/
def EricssonMinilink63SSH.defaultConfigCommand : String := "config"

/-- `EricssonMinilink66SSH.config_mode`'s default `config_command`. -/
def EricssonMinilink66SSH.defaultConfigCommand : String := "configure"

/-- `EricssonMinilink63SSH.config_mode` over a scripted device: `promptBefore`
and `promptAfter` are the live prompts seen by the two `check_config_mode`
probes, `transcript` is what `read_until_pattern` returns after the entry
command is written.  The result pairs the returned transcript (or the raised
error) with the list of channel writes performed. -/
def EricssonMinilink63SSH.config_mode (config_command promptBefore transcript
    promptAfter : String) : Except ConfigError String × List String :=
  if check_config_mode ")#" promptBefore then
    (Except.ok "", [])
  else
    let w := normalize_cmd config_command
    if check_config_mode ")#" promptAfter then
      (Except.ok transcript, [w])
    else
      (Except.error ConfigError.entryFailed, [w])

/-- `EricssonMinilink66SSH.config_mode`, textually the same control flow as
the 63xx variant (the two methods are duplicated in the source); only the
default `config_command` differs. -/
def EricssonMinilink66SSH.config_mode (config_command promptBefore transcript
    promptAfter : String) : Except ConfigError String × List String :=
  if check_config_mode ")#" promptBefore then
    (Except.ok "", [])
  else
    let w := normalize_cmd config_command
    if check_config_mode ")#" promptAfter then
      (Except.ok transcript, [w])
    else
      (Except.error ConfigError.entryFailed, [w])

/-- Collaborator calls made by `save_config`: each
`exit_config_mode(exit_config, pattern)` invocation and each
`send_command_timing(command_string, strip_prompt, strip_command)`
invocation, in order. -/
structure SaveConfigTrace where
  exitCalls : List (String × String)
  sendCalls : List (String × Bool × Bool)
deriving DecidableEq, Repr

/-- Modelled from the spec: `sendCommandTiming(cmd, stripPrompt, stripCommand)`
of the generic connection layer returns the device transcript, with the
(externally defined) prompt/command stripping transformations `stripP` and
`stripC` applied only when the corresponding flag is set; with both flags
false the transcript is returned untouched. -/
def send_command_timing (stripP stripC : String → String) (cmd : String)
    ( strip_prompt strip_command : Bool) (raw : String) : String :=
  let r1 := if strip_command then stripC raw else raw
  let _ := cmd
  if strip_prompt then stripP r1 else r1

/-- `EricssonMinilinkBase.save_config`'s default `cmd`. -/
def EricssonMinilinkBase.defaultSaveCommand : String := "write"

/-- `EricssonMinilinkBase.save_config` over a scripted device: probe the live
prompt for the `)#` marker; if in configuration mode, exit it first via
`exit_config_mode("exit", "#")`; then send `cmd` via the timing-based send
with both strips disabled and return its transcript.  `livePrompt` is the
prompt seen by the probe and `raw` the transcript the timing-based send
obtains from the device; the trace records the collaborator calls. -/
def EricssonMinilinkBase.save_config (stripP stripC : String → String)
    (cmd livePrompt raw : String) : String × SaveConfigTrace :=
  if check_config_mode ")#" livePrompt then
    (send_command_timing stripP stripC cmd false false raw,
      ⟨[("exit", "#")], [(cmd, false, false)]⟩)
  else
    (send_command_timing stripP stripC cmd false false raw,
      ⟨[], [(cmd, false, false)]⟩)

/-- Every pass of the loop body that continues advances the clock: the nudge
path sleeps 0.5 s and every fall-through path sleeps 1 s. -/
theorem loginStep_cont_elapsed (cfg : LoginCfg) (s s' : LoginState)
    (h : loginStep cfg s = StepResult.cont s') : s.elapsed < s'.elapsed := by
  simp only [loginStep, loginBranches] at h
  repeat' split at h
  all_goals simp_all
  all_goals (subst h; simp)
  all_goals omega

/-- A continuing pass never invokes `disconnect()`. -/
theorem loginStep_cont_disconnects (cfg : LoginCfg) (s s' : LoginState)
    (h : loginStep cfg s = StepResult.cont s') : s'.disconnects = s.disconnects := by
  simp only [loginStep, loginBranches] at h
  repeat' split at h
  all_goals simp_all
  all_goals (subst h; simp)

/-- The loop body terminates the loop only through the password branch or the
busy branch. -/
theorem loginStep_done_cases (cfg : LoginCfg) (s : LoginState) (o : LoginOutcome)
    (s' : LoginState) (h : loginStep cfg s = StepResult.done o s') :
    o = LoginOutcome.authenticated ∨ o = LoginOutcome.busy := by
  simp only [loginStep, loginBranches] at h
  repeat' split at h
  all_goals simp_all

/-- When the loop body breaks with `Authenticated`, the write it just made —
the last write of the whole run — is the password followed by the line
terminator. -/
theorem loginStep_done_auth (cfg : LoginCfg) (s s' : LoginState)
    (h : loginStep cfg s = StepResult.done LoginOutcome.authenticated s') :
    s'.writes = s.writes ++ [cfg.password ++ RETURN] := by
  simp only [loginStep, loginBranches] at h
  repeat' split at h
  all_goals simp_all
  all_goals (subst h; simp)

/-- When the loop body raises on `busy`, it has invoked `disconnect()` exactly
once more than before, and written nothing further. -/
theorem loginStep_done_busy (cfg : LoginCfg) (s s' : LoginState)
    (h : loginStep cfg s = StepResult.done LoginOutcome.busy s') :
    s'.disconnects = s.disconnects + 1 ∧ s'.writes = s.writes := by
  simp only [loginStep, loginBranches] at h
  repeat' split at h
  all_goals simp_all
  all_goals (subst h; simp)

/-- Fuel adequacy: whenever the loop reports a timeout — including via the
fuel fallback — the wall-clock deadline has genuinely passed, so the fuel
fallback coincides with the `while` guard failing.  The hypothesis holds for
the initial fuel `loginDeadline cfg` because each continuing pass advances
the clock by at least one tick. -/
theorem loginLoopF_timedOut_deadline (cfg : LoginCfg) (fuel : Nat) :
    ∀ (s s' : LoginState) (t : Nat), loginDeadline cfg ≤ s.elapsed + fuel →
      loginLoopF cfg fuel s = (LoginOutcome.timedOut t, s') →
      loginDeadline cfg ≤ s'.elapsed := by
  induction fuel with
  | zero =>
    intro s s' t hle h
    simp only [loginLoopF] at h
    obtain ⟨-, rfl⟩ := Prod.mk.injEq .. ▸ h
    omega
  | succ n ih =>
    intro s s' t hle h
    simp only [loginLoopF] at h
    split at h
    · cases h2 : loginStep cfg s with
      | done o s1 =>
        rw [h2] at h
        simp only at h
        obtain ⟨ho, rfl⟩ := Prod.mk.injEq .. ▸ h
        rcases loginStep_done_cases cfg s o s1 h2 with rfl | rfl <;> simp_all
      | cont s1 =>
        rw [h2] at h
        simp only at h
        have := loginStep_cont_elapsed cfg s s1 h2
        exact ih s1 s' t (by omega) h
    · obtain ⟨-, rfl⟩ := Prod.mk.injEq .. ▸ h
      omega

/-- Whenever the loop ends `Authenticated`, the last channel write of the run
is the password followed by the line terminator. -/
theorem loginLoopF_auth_lastWrite (cfg : LoginCfg) (fuel : Nat) :
    ∀ s s' : LoginState,
      loginLoopF cfg fuel s = (LoginOutcome.authenticated, s') →
      s'.writes.getLast? = some (cfg.password ++ RETURN) := by
  induction fuel with
  | zero => intro s s' h; simp [loginLoopF] at h
  | succ n ih =>
    intro s s' h
    simp only [loginLoopF] at h
    split at h
    · cases h2 : loginStep cfg s with
      | done o s1 =>
        rw [h2] at h
        simp only at h
        obtain ⟨rfl, rfl⟩ := Prod.mk.injEq .. ▸ h
        rw [loginStep_done_auth cfg s s1 h2]
        simp
      | cont s1 =>
        rw [h2] at h
        simp only at h
        exact ih s1 s' h
    · simp at h

/-- Whenever the loop ends `Busy`, exactly one more `disconnect()` has been
invoked than at entry. -/
theorem loginLoopF_busy_disconnects (cfg : LoginCfg) (fuel : Nat) :
    ∀ s s' : LoginState,
      loginLoopF cfg fuel s = (LoginOutcome.busy, s') →
      s'.disconnects = s.disconnects + 1 := by
  induction fuel with
  | zero => intro s s' h; simp [loginLoopF] at h
  | succ n ih =>
    intro s s' h
    simp only [loginLoopF] at h
    split at h
    · cases h2 : loginStep cfg s with
      | done o s1 =>
        rw [h2] at h
        simp only at h
        obtain ⟨rfl, rfl⟩ := Prod.mk.injEq .. ▸ h
        exact (loginStep_done_busy cfg s s1 h2).1
      | cont s1 =>
        rw [h2] at h
        simp only at h
        rw [ih s1 s' h, loginStep_cont_disconnects cfg s s1 h2]
    · simp at h

/-- Whenever the loop ends in a timeout, the value the raised exception
carries is the resolved `auth_timeout`. -/
theorem loginLoopF_timedOut_val (cfg : LoginCfg) (fuel : Nat) :
    ∀ (s s' : LoginState) (t : Nat),
      loginLoopF cfg fuel s = (LoginOutcome.timedOut t, s') →
      t = effectiveTimeout cfg.authTimeout := by
  induction fuel with
  | zero =>
    intro s s' t h
    simp only [loginLoopF] at h
    obtain ⟨ht, -⟩ := Prod.mk.injEq .. ▸ h
    exact (LoginOutcome.timedOut.injEq .. ▸ ht).symm
  | succ n ih =>
    intro s s' t h
    simp only [loginLoopF] at h
    split at h
    · cases h2 : loginStep cfg s with
      | done o s1 =>
        rw [h2] at h
        simp only at h
        obtain ⟨rfl, rfl⟩ := Prod.mk.injEq .. ▸ h
        rcases loginStep_done_cases cfg s _ s1 h2 with h3 | h3 <;> simp_all
      | cont s1 =>
        rw [h2] at h
        simp only at h
        exact ih s1 s' t h
    · obtain ⟨ht, -⟩ := Prod.mk.injEq .. ▸ h
      exact (LoginOutcome.timedOut.injEq .. ▸ ht).symm

/-- C1: in every login run that ends `Authenticated`, the last write to the
channel is exactly the password followed by the line terminator; this
password-send `break` is the only success exit of the loop (a run never
returns `Authenticated` without it), and the lowercase `"password:"` and
capitalised `"Password:"` prompt scripts both reach it, producing identical
write sequences. -/
theorem claim_C1_password_send_sole_success :
    (∀ (cfg : LoginCfg) (reads : List String) (s' : LoginState),
      special_login_handler cfg reads = (LoginOutcome.authenticated, s') →
      s'.writes ≠ [] ∧ s'.writes.getLast? = some (cfg.password ++ RETURN)) ∧
    (special_login_handler ⟨"bob", "secret", some 2⟩ ["User:", "Password:"]).1 =
      LoginOutcome.authenticated ∧
    (special_login_handler ⟨"bob", "secret", some 2⟩ ["login:", "password:"]).1 =
      LoginOutcome.authenticated ∧
    (special_login_handler ⟨"bob", "secret", some 2⟩ ["User:", "Password:"]).2.writes =
      (special_login_handler ⟨"bob", "secret", some 2⟩ ["login:", "password:"]).2.writes := by
  refine ⟨?_, by decide, by decide, by decide⟩
  intro cfg reads s' h
  have hl := loginLoopF_auth_lastWrite cfg (loginDeadline cfg) _ s' h
  refine ⟨?_, hl⟩
  intro hnil
  rw [hnil] at hl
  simp at hl

/-- Witness for C1 at a concrete scripted channel. -/
theorem claim_C1_witness :
    special_login_handler ⟨"bob", "secret", some 2⟩ ["User:", "Password:"] =
      (LoginOutcome.authenticated,
        ⟨2, "Password:", [], ["bob" ++ RETURN, "secret" ++ RETURN], 0⟩) ∧
    (⟨2, "Password:", [], ["bob" ++ RETURN, "secret" ++ RETURN], 0⟩ :
        LoginState).writes.getLast? = some ("secret" ++ RETURN) :=
  ⟨by decide,
    (claim_C1_password_send_sole_success.1 ⟨"bob", "secret", some 2⟩
      ["User:", "Password:"] _ (by decide)).2⟩

/-- C2: every login run in which the polling loop exhausts the wall-clock
timeout without reaching the password-send or busy exit raises
`NetmikoTimeoutException` carrying the configured `auth_timeout` value (the
value after the spec's own zero/unset-to-20 resolution; when a nonzero
timeout was configured, that is exactly the configured value). -/
theorem claim_C2_timeout_carries_auth_timeout :
    (∀ (cfg : LoginCfg) (reads : List String) (t : Nat) (s' : LoginState),
      special_login_handler cfg reads = (LoginOutcome.timedOut t, s') →
      t = effectiveTimeout cfg.authTimeout) ∧
    (∀ T : Nat, T ≠ 0 → effectiveTimeout (some T) = T) := by
  constructor
  · intro cfg reads t s' h
    exact loginLoopF_timedOut_val cfg (loginDeadline cfg) _ s' t h
  · intro T hT
    cases T with
    | zero => exact absurd rfl hT
    | succ n => rfl

/-- Witness for C2: a channel that only emits unrecognizable noise times out
after the configured 1-second timeout and the raised condition carries 1. -/
theorem claim_C2_witness :
    special_login_handler ⟨"bob", "secret", some 1⟩ ["noise"] =
      (LoginOutcome.timedOut 1, ⟨2, "noise", [], [], 0⟩) ∧
    (1 : Nat) = effectiveTimeout (some 1) ∧ effectiveTimeout (some 1) = 1 :=
  ⟨by decide,
    claim_C2_timeout_carries_auth_timeout.1 ⟨"bob", "secret", some 1⟩ ["noise"] 1
      ⟨2, "noise", [], [], 0⟩ (by decide),
    claim_C2_timeout_carries_auth_timeout.2 1 (by decide)⟩

/-- C3: every login run whose accumulated buffer comes to contain `"busy"`
(the two prompt branches not having fired that pass — `"busy"` is only
checked after them) invokes `disconnect()` exactly once, in the same pass and
before the `ValueError` terminates the run. -/
theorem claim_C3_busy_disconnects_once :
    ∀ (cfg : LoginCfg) (reads : List String) (s' : LoginState),
      special_login_handler cfg reads = (LoginOutcome.busy, s') →
      s'.disconnects = 1 := by
  intro cfg reads s' h
  exact loginLoopF_busy_disconnects cfg (loginDeadline cfg) _ s' h

/-- Witness for C3: a channel emitting `"busy"` fails busy with exactly one
`disconnect()` invocation recorded. -/
theorem claim_C3_witness :
    special_login_handler ⟨"bob", "secret", some 2⟩ ["busy"] =
      (LoginOutcome.busy, ⟨0, "busy", [], [], 1⟩) ∧
    (⟨0, "busy", [], [], 1⟩ : LoginState).disconnects = 1 :=
  ⟨by decide,
    claim_C3_busy_disconnects_once ⟨"bob", "secret", some 2⟩ ["busy"] _ (by decide)⟩

/-- C4 counterexample: a session constructed without a `username` keyword
argument (a construction the source explicitly guards for with
`if "username" in kwargs`) hands no placeholder to `super().__init__` — the
transport-level negotiation does not use `"cli"`, refuting "for every
construction of a session". -/
theorem claim_C4_counterexample :
    EricssonMinilinkBase.init none = ⟨"", none⟩ ∧
    (EricssonMinilinkBase.init none).superUsername ≠ some "cli" := by
  decide

/-- C4 (amended): for every construction that supplies a `username` keyword,
the fixed placeholder `"cli"` is the username handed to the transport-level
negotiation — independently of the supplied name, so the real username never
reaches the transport level — while the supplied name is stored as the real
username; during the interactive handshake the real username is written
exactly by the username-prompt branch (followed by the line terminator). -/
theorem claim_C4_amended_placeholder_for_transport :
    (∀ u : String, EricssonMinilinkBase.init (some u) = ⟨u, some "cli"⟩) ∧
    (∀ (cfg : LoginCfg) (e : Nat) (out : String) (reads writes : List String)
        (d : Nat),
      (strContains out "login:" || strContains out "User:") = true →
      loginBranches cfg e out reads writes d =
        StepResult.cont
          ⟨e + 2, "", reads, writes ++ [cfg.realUsername ++ RETURN], d⟩) := by
  constructor
  · intro u
    rfl
  · intro cfg e out reads writes d h
    simp [loginBranches, h]

/-- Witness for the amended C4 at a concrete construction and a concrete
username-prompt pass. -/
theorem claim_C4_witness :
    EricssonMinilinkBase.init (some "alice") = ⟨"alice", some "cli"⟩ ∧
    loginBranches ⟨"alice", "pw", some 2⟩ 0 "User:" [] [] 0 =
      StepResult.cont ⟨2, "", [], ["alice" ++ RETURN], 0⟩ :=
  ⟨claim_C4_amended_placeholder_for_transport.1 "alice",
    claim_C4_amended_placeholder_for_transport.2 ⟨"alice", "pw", some 2⟩ 0 "User:"
      [] [] 0 (by decide)⟩

/-- C5: for both device-generation variants, a `config_mode()` call made
while the probed live prompt already contains the marker `)#` performs zero
channel writes and returns the empty transcript, for any command override. -/
theorem claim_C5_config_mode_idempotent :
    ∀ cmd pB tr pA : String, check_config_mode ")#" pB = true →
      EricssonMinilink63SSH.config_mode cmd pB tr pA = (Except.ok "", []) ∧
      EricssonMinilink66SSH.config_mode cmd pB tr pA = (Except.ok "", []) := by
  intro cmd pB tr pA h
  constructor <;>
    simp [EricssonMinilink63SSH.config_mode, EricssonMinilink66SSH.config_mode, h]

/-- Witness for C5 on a concrete configuration-mode prompt. -/
theorem claim_C5_witness :
    check_config_mode ")#" "node(config)#" = true ∧
    EricssonMinilink63SSH.config_mode "config" "node(config)#" "" "node(config)#" =
      (Except.ok "", []) ∧
    EricssonMinilink66SSH.config_mode "configure" "node(config)#" "" "node(config)#" =
      (Except.ok "", []) :=
  ⟨by decide,
    (claim_C5_config_mode_idempotent "config" "node(config)#" "" "node(config)#"
      (by decide)).1,
    (claim_C5_config_mode_idempotent "configure" "node(config)#" "" "node(config)#"
      (by decide)).2⟩

/-- C6: a `config_mode()` call made while not in configuration mode, with the
variant's default command, writes the normalized `"config"` (ML63xx) resp.
`"configure"` (ML66xx) — and exactly that — and, when the re-probe after the
write still does not show `)#`, fails with the
`Failed to enter configuration mode.` error in both variants. -/
theorem claim_C6_config_mode_entry :
    ∀ pB tr pA : String, check_config_mode ")#" pB = false →
      ((EricssonMinilink63SSH.config_mode EricssonMinilink63SSH.defaultConfigCommand
          pB tr pA).2 = [normalize_cmd "config"] ∧
       (EricssonMinilink66SSH.config_mode EricssonMinilink66SSH.defaultConfigCommand
          pB tr pA).2 = [normalize_cmd "configure"]) ∧
      (check_config_mode ")#" pA = false →
        (EricssonMinilink63SSH.config_mode EricssonMinilink63SSH.defaultConfigCommand
            pB tr pA).1 = Except.error ConfigError.entryFailed ∧
        (EricssonMinilink66SSH.config_mode EricssonMinilink66SSH.defaultConfigCommand
            pB tr pA).1 = Except.error ConfigError.entryFailed) := by
  intro pB tr pA h
  refine ⟨⟨?_, ?_⟩, fun h2 => ⟨?_, ?_⟩⟩ <;>
    simp [EricssonMinilink63SSH.config_mode, EricssonMinilink66SSH.config_mode,
      EricssonMinilink63SSH.defaultConfigCommand,
      EricssonMinilink66SSH.defaultConfigCommand, h] <;>
    (try simp_all) <;> (try split) <;> simp_all

/-- Witness for C6 on concrete base prompts on both sides of the write. -/
theorem claim_C6_witness :
    check_config_mode ")#" "node#" = false ∧
    (EricssonMinilink63SSH.config_mode EricssonMinilink63SSH.defaultConfigCommand
        "node#" "t" "node#").2 = [normalize_cmd "config"] ∧
    (EricssonMinilink66SSH.config_mode EricssonMinilink66SSH.defaultConfigCommand
        "node#" "t" "node#").1 = Except.error ConfigError.entryFailed :=
  ⟨by decide,
    (claim_C6_config_mode_entry "node#" "t" "node#" (by decide)).1.1,
    ((claim_C6_config_mode_entry "node#" "t" "node#" (by decide)).2 (by decide)).2⟩

/-- C7: `save_config` exits configuration mode — via
`exit_config_mode("exit", "#")`, whose `"#"` pattern requires return to the
base prompt — exactly when the probed live prompt shows `)#`; it then always
sends the save command (default `"write"`) through the timing-based send with
both `strip_prompt` and `strip_command` disabled and returns the device's
transcript untouched, whatever stripping transformations the collaborator
would otherwise apply. -/
theorem claim_C7_save_config :
    ∀ (stripP stripC : String → String) (prompt raw : String),
      (EricssonMinilinkBase.save_config stripP stripC
          EricssonMinilinkBase.defaultSaveCommand prompt raw).1 = raw ∧
      (EricssonMinilinkBase.save_config stripP stripC
          EricssonMinilinkBase.defaultSaveCommand prompt raw).2.sendCalls =
        [("write", false, false)] ∧
      (EricssonMinilinkBase.save_config stripP stripC
          EricssonMinilinkBase.defaultSaveCommand prompt raw).2.exitCalls =
        (if check_config_mode ")#" prompt then [("exit", "#")] else []) := by
  intro stripP stripC prompt raw
  refine ⟨?_, ?_, ?_⟩ <;>
    simp [EricssonMinilinkBase.save_config, send_command_timing,
      EricssonMinilinkBase.defaultSaveCommand] <;>
    split <;> simp

/-- C8: whenever `auth_timeout` is unset or zero, the resolved timeout is
exactly 20 seconds and the polling loop's wall-clock deadline is 20 seconds
(40 half-second ticks). -/
theorem claim_C8_default_timeout :
    ∀ cfg : LoginCfg, cfg.authTimeout = none ∨ cfg.authTimeout = some 0 →
      effectiveTimeout cfg.authTimeout = 20 ∧ loginDeadline cfg = 2 * 20 := by
  intro cfg h
  rcases h with h | h <;> simp [loginDeadline, effectiveTimeout, h]

/-- Witness for C8 at the unset and the zero configuration. -/
theorem claim_C8_witness :
    (effectiveTimeout (none : Option Nat) = 20 ∧
      loginDeadline ⟨"u", "p", none⟩ = 2 * 20) ∧
    (effectiveTimeout (some 0) = 20 ∧ loginDeadline ⟨"u", "p", some 0⟩ = 2 * 20) :=
  ⟨claim_C8_default_timeout ⟨"u", "p", none⟩ (Or.inl rfl),
    claim_C8_default_timeout ⟨"u", "p", some 0⟩ (Or.inr rfl)⟩

/-- A concrete configuration for the C9 counterexample. -/
def cfgEx9 : LoginCfg := ⟨"bob", "pw", some 20⟩

/-- A concrete loop state for the C9 counterexample: the first non-blocking
read yields `"login:"`, so the username-prompt branch fires on a pass with no
half-second catch-up sleep. -/
def sEx9 : LoginState := ⟨0, "", ["login:"], [], 0⟩

/-- C9 counterexample: in the pass from `sEx9` the username-prompt branch
(branch c) fires, yet the clock advances by 2 ticks — the trailing
`time.sleep(1)` runs even though a b–e branch matched.  Under the claim the
pass would continue with the clock unchanged (second conjunct), which is
false: the source guards the sleep only against the `continue` of the
empty-buffer nudge and the `break`/`raise` exits, not against the username
branch. -/
theorem claim_C9_counterexample :
    loginStep cfgEx9 sEx9 =
      StepResult.cont ⟨2, "", [], ["bob" ++ RETURN], 0⟩ ∧
    loginStep cfgEx9 sEx9 ≠
      StepResult.cont ⟨0, "", [], ["bob" ++ RETURN], 0⟩ := by
  decide

/-- C9 (amended): the trailing 1-unit wait runs in every pass that falls
through the `if`/`elif` chain and is skipped exactly by the empty-buffer
nudge restart and by the loop-terminating password/busy branches.  The first
conjunct characterizes every continuing pass exhaustively: either it is the
nudge restart (both reads left the buffer empty, a bare `RETURN` was written,
only the 0.5-unit catch-up sleep elapsed: +1 tick), or it fell through the
chain after a non-empty first read (+2 ticks: the 1-unit wait), or it fell
through after the buffer filled only on the catch-up read (+3 ticks: the
0.5-unit sleep and the 1-unit wait) — so every fall-through pass, whichever
branch matched, waits the 1 unit.  The second and third conjuncts pin the
username-prompt passes in particular (first-read and catch-up-read variants):
the username is written, the buffer cleared, and the 1-unit wait still
elapses.  The last conjunct shows the terminating password/busy passes add no
1-unit wait (at most the 0.5-unit catch-up sleep). -/
theorem claim_C9_amended_sleep_after_username :
    ∀ (cfg : LoginCfg) (s : LoginState),
      (∀ s' : LoginState, loginStep cfg s = StepResult.cont s' →
        (s.output ++ (readChannel s.reads).1 = "" ∧
          (readChannel (readChannel s.reads).2).1 = "" ∧
          s'.elapsed = s.elapsed + 1 ∧ s'.writes = s.writes ++ [RETURN]) ∨
        (s.output ++ (readChannel s.reads).1 ≠ "" ∧
          s'.elapsed = s.elapsed + 2) ∨
        (s.output ++ (readChannel s.reads).1 = "" ∧
          (readChannel (readChannel s.reads).2).1 ≠ "" ∧
          s'.elapsed = s.elapsed + 3)) ∧
      (s.output ++ (readChannel s.reads).1 ≠ "" →
        (strContains (s.output ++ (readChannel s.reads).1) "login:" ||
         strContains (s.output ++ (readChannel s.reads).1) "User:") = true →
        loginStep cfg s = StepResult.cont
          ⟨s.elapsed + 2, "", (readChannel s.reads).2,
            s.writes ++ [cfg.realUsername ++ RETURN], s.disconnects⟩) ∧
      (s.output ++ (readChannel s.reads).1 = "" →
        (readChannel (readChannel s.reads).2).1 ≠ "" →
        (strContains ((readChannel (readChannel s.reads).2).1) "login:" ||
         strContains ((readChannel (readChannel s.reads).2).1) "User:") = true →
        loginStep cfg s = StepResult.cont
          ⟨s.elapsed + 3, "", (readChannel (readChannel s.reads).2).2,
            s.writes ++ [cfg.realUsername ++ RETURN], s.disconnects⟩) ∧
      (∀ (o : LoginOutcome) (s' : LoginState),
        loginStep cfg s = StepResult.done o s' →
        s'.elapsed = s.elapsed ∨ s'.elapsed = s.elapsed + 1) := by
  intro cfg s
  refine ⟨?_, ?_, ?_, ?_⟩
  · intro s' h
    simp only [loginStep, loginBranches] at h
    repeat' split at h
    all_goals simp_all
    all_goals (subst h; simp_all)
  · intro hne hu
    simp only [loginStep, loginBranches]
    rw [if_neg hne]
    simp [hu]
  · intro h1 h2 hu
    simp only [loginStep, loginBranches]
    rw [if_pos h1, h1]
    simp only [String.empty_append] at hu ⊢
    rw [if_neg h2]
    simp [hu]
  · intro o s' h
    simp only [loginStep, loginBranches] at h
    repeat' split at h
    all_goals simp_all
    all_goals (obtain ⟨-, h2⟩ := h; subst h2; simp)

/-- Witness for the amended C9: a pass in which the username branch fires on
a non-empty first read waits the 1-unit sleep (clock 0 → 2 ticks), one in
which it fires after the catch-up read waits 0.5 + 1 units (0 → 3 ticks), a
no-marker fall-through pass is covered by the exhaustive characterization, a
doubly-empty pass nudges with only the 0.5-unit sleep, and a password pass
terminates with no wait. -/
theorem claim_C9_witness :
    loginStep ⟨"ann", "pw", some 2⟩ ⟨0, "", ["login:"], [], 0⟩ =
      StepResult.cont ⟨2, "", [], ["ann" ++ RETURN], 0⟩ ∧
    loginStep ⟨"ann", "pw", some 2⟩ ⟨0, "", ["", "login:"], [], 0⟩ =
      StepResult.cont ⟨3, "", [], ["ann" ++ RETURN], 0⟩ ∧
    (("noise" ++ (readChannel ([] : List String)).1 = "" ∧
        (readChannel (readChannel ([] : List String)).2).1 = "" ∧
        (2 : Nat) = 0 + 1 ∧ ([] : List String) = [] ++ [RETURN]) ∨
      ("noise" ++ (readChannel ([] : List String)).1 ≠ "" ∧ (2 : Nat) = 0 + 2) ∨
      ("noise" ++ (readChannel ([] : List String)).1 = "" ∧
        (readChannel (readChannel ([] : List String)).2).1 ≠ "" ∧
        (2 : Nat) = 0 + 3)) ∧
    (("" ++ (readChannel ([] : List String)).1 = "" ∧
        (readChannel (readChannel ([] : List String)).2).1 = "" ∧
        (1 : Nat) = 0 + 1 ∧ ([RETURN] : List String) = [] ++ [RETURN]) ∨
      ("" ++ (readChannel ([] : List String)).1 ≠ "" ∧ (1 : Nat) = 0 + 2) ∨
      ("" ++ (readChannel ([] : List String)).1 = "" ∧
        (readChannel (readChannel ([] : List String)).2).1 ≠ "" ∧
        (1 : Nat) = 0 + 3)) ∧
    ((0 : Nat) = 0 ∨ (0 : Nat) = 0 + 1) :=
  ⟨(claim_C9_amended_sleep_after_username ⟨"ann", "pw", some 2⟩
      ⟨0, "", ["login:"], [], 0⟩).2.1 (by decide) (by decide),
    (claim_C9_amended_sleep_after_username ⟨"ann", "pw", some 2⟩
      ⟨0, "", ["", "login:"], [], 0⟩).2.2.1 (by decide) (by decide) (by decide),
    (claim_C9_amended_sleep_after_username ⟨"ann", "pw", some 2⟩
      ⟨0, "noise", [], [], 0⟩).1 ⟨2, "noise", [], [], 0⟩ (by decide),
    (claim_C9_amended_sleep_after_username ⟨"ann", "pw", some 2⟩
      ⟨0, "", [], [], 0⟩).1 ⟨1, "", [], [RETURN], 0⟩ (by decide),
    (claim_C9_amended_sleep_after_username ⟨"ann", "pw", some 2⟩
      ⟨0, "Password:", [], [], 0⟩).2.2.2 LoginOutcome.authenticated
      ⟨0, "Password:", [], ["pw" ++ RETURN], 0⟩ (by decide)⟩

/-- C10: the username-prompt check has strict priority in the `if`/`elif`
chain — on a pass whose accumulated buffer simultaneously contains a
username-prompt marker and a password-prompt marker or `"busy"`, the only
write made is the real username plus terminator, `disconnect()` is not
invoked, and the buffer is cleared to `""`, discarding the co-present
markers (they can only act later if the device re-emits them). -/
theorem claim_C10_username_priority :
    ∀ (cfg : LoginCfg) (s : LoginState),
      s.output ++ (readChannel s.reads).1 ≠ "" →
      (strContains (s.output ++ (readChannel s.reads).1) "login:" ||
       strContains (s.output ++ (readChannel s.reads).1) "User:") = true →
      (strContains (s.output ++ (readChannel s.reads).1) "password:" ||
       strContains (s.output ++ (readChannel s.reads).1) "Password:" ||
       strContains (s.output ++ (readChannel s.reads).1) "busy") = true →
      loginStep cfg s = StepResult.cont
        ⟨s.elapsed + 2, "", (readChannel s.reads).2,
          s.writes ++ [cfg.realUsername ++ RETURN], s.disconnects⟩ := by
  intro cfg s hne hu _
  simp only [loginStep, loginBranches]
  rw [if_neg hne]
  simp [hu]

/-- Witness for C10: a buffer holding `"login:"`, `"Password:"` and `"busy"`
at once triggers only the username write and is cleared. -/
theorem claim_C10_witness :
    loginStep ⟨"eve", "pw", some 2⟩ ⟨0, "", ["login: Password: busy"], [], 0⟩ =
      StepResult.cont ⟨2, "", [], ["eve" ++ RETURN], 0⟩ :=
  claim_C10_username_priority ⟨"eve", "pw", some 2⟩
    ⟨0, "", ["login: Password: busy"], [], 0⟩ (by decide) (by decide) (by decide)
